import Mathlib

/-!
Verification development for the browser-automation agent repository.

The sources are three JavaScript files (two scripts concatenated in
`src/unnamed/part_000` — a puppeteer-based agent and a playwright-based
agent — plus `src/unnamed/part_001` and `src/assignemnt.js`).  The
definitions below are shallow embeddings of the tool `execute` bodies and
runner functions of those scripts; stateful page interaction is made
explicit through an event trace, and a `Page` record abstracts the outcome
each puppeteer/playwright primitive has for a given selector.
-/

set_option maxRecDepth 8000
set_option linter.unusedVariables false

namespace AgentSdk

/-- Outcome of one page-level primitive call (`waitForSelector`, `click`,
`type`): it either resolves, or rejects with an error message. -/
abbrev StepResult := Except String Unit

/-- The live page, abstracted as the outcome each primitive has for a given
selector.  `waitSel` is `page.waitForSelector(sel, { visible: true,
timeout: 4000 })`, `clickSel` is `page.click(sel, ...)`, `typeSel` is
`page.type(sel, value, ...)`. -/
structure Page where
  waitSel : String → StepResult
  clickSel : String → StepResult
  typeSel : String → StepResult

/-- Observable page interactions, in the order the tools perform them. -/
inductive Event where
  | waited : String → Nat → Event
  | clicked : String → Nat → Event
  | paused : Nat → Event
  | typed : String → String → Nat → Event
  | gotoUrl : String → Event
  | waitedTimeout : Nat → Event
deriving DecidableEq, Repr

/-- The `\x7b success: true, selector: sel \x7d` payload the part_000 tools
return on success. -/
structure ActionOk where
  success : Bool
  selector : String
deriving DecidableEq, Repr

/-- JS template-literal conversion of an Array of strings: elements joined
with a comma (used by the exhaustion error messages). -/
def jsArrayToString (xs : List String) : String := String.intercalate "," xs

/-- One candidate attempt of part_000 `fill_input` (src/unnamed/part_000
lines 135-144): wait up to 4000ms for visibility, triple-click, 200ms
pause, then type with 90ms inter-keystroke delay.  Returns the events the
attempt performed and whether the whole sequence completed without error. -/
def fillAttempt (pg : Page) (value sel : String) : List Event × Bool :=
  match pg.waitSel sel with
  | Except.error _ => ([Event.waited sel 4000], false)
  | Except.ok _ =>
    match pg.clickSel sel with
    | Except.error _ => ([Event.waited sel 4000, Event.clicked sel 3], false)
    | Except.ok _ =>
      match pg.typeSel sel with
      | Except.error _ =>
          ([Event.waited sel 4000, Event.clicked sel 3, Event.paused 200], false)
      | Except.ok _ =>
          ([Event.waited sel 4000, Event.clicked sel 3, Event.paused 200,
            Event.typed sel value 90], true)

/-- The `for (const sel of selectors) try ... catch { continue }` loop of
`fill_input`: first candidate whose attempt succeeds is returned; errors of
failing candidates are discarded. -/
def fillLoop (pg : Page) (value : String) : List String → List Event × Option String
  | [] => ([], none)
  | sel :: rest =>
    let a := fillAttempt pg value sel
    if a.2 then (a.1, some sel)
    else
      let r := fillLoop pg value rest
      (a.1 ++ r.1, r.2)

/-- part_000 `fill_input` tool body (src/unnamed/part_000 lines 134-147):
returns `\x7b success: true, selector \x7d` for the first working candidate,
otherwise throws listing the input selector array. -/
def inputWriter (pg : Page) (selectors : List String) (value : String) :
    List Event × Except String ActionOk :=
  let r := fillLoop pg value selectors
  match r.2 with
  | some sel => (r.1, Except.ok { success := true, selector := sel })
  | none => (r.1, Except.error ("Failed to fill input using: " ++ jsArrayToString selectors))

/-- One candidate attempt of part_000 `click_element` (src/unnamed/part_000
lines 155-159): wait up to 4000ms for visibility, then a single click. -/
def clickAttempt (pg : Page) (sel : String) : List Event × Bool :=
  match pg.waitSel sel with
  | Except.error _ => ([Event.waited sel 4000], false)
  | Except.ok _ =>
    match pg.clickSel sel with
    | Except.error _ => ([Event.waited sel 4000, Event.clicked sel 1], false)
    | Except.ok _ => ([Event.waited sel 4000, Event.clicked sel 1], true)

/-- The fallback loop of `click_element`. -/
def clickLoop (pg : Page) : List String → List Event × Option String
  | [] => ([], none)
  | sel :: rest =>
    let a := clickAttempt pg sel
    if a.2 then (a.1, some sel)
    else
      let r := clickLoop pg rest
      (a.1 ++ r.1, r.2)

/-- part_000 `click_element` tool body (src/unnamed/part_000 lines 150-166). -/
def clicker (pg : Page) (selectors : List String) :
    List Event × Except String ActionOk :=
  let r := clickLoop pg selectors
  match r.2 with
  | some sel => (r.1, Except.ok { success := true, selector := sel })
  | none => (r.1, Except.error ("Failed to click using: " ++ jsArrayToString selectors))

/-- The (selector, timeout) waits an event trace contains, in order. -/
def waitTrace (evs : List Event) : List (String × Nat) :=
  evs.filterMap fun e =>
    match e with
    | Event.waited s t => some (s, t)
    | _ => none

/-- Events of a run of fill attempts over a list of candidates. -/
def attemptEvs (pg : Page) (v : String) : List String → List Event
  | [] => []
  | c :: cs => (fillAttempt pg v c).1 ++ attemptEvs pg v cs

/-- Events of a run of click attempts over a list of candidates. -/
def clickEvs (pg : Page) : List String → List Event
  | [] => []
  | c :: cs => (clickAttempt pg c).1 ++ clickEvs pg cs

theorem waitTrace_append (a b : List Event) :
    waitTrace (a ++ b) = waitTrace a ++ waitTrace b := by
  simp [waitTrace, List.filterMap_append]

theorem fillAttempt_waitTrace (pg : Page) (v sel : String) :
    waitTrace (fillAttempt pg v sel).1 = [(sel, 4000)] := by
  unfold fillAttempt
  rcases pg.waitSel sel with m | u
  · simp [waitTrace]
  · rcases pg.clickSel sel with m | u
    · simp [waitTrace]
    · rcases pg.typeSel sel with m | u
      · simp [waitTrace]
      · simp [waitTrace]

theorem clickAttempt_waitTrace (pg : Page) (sel : String) :
    waitTrace (clickAttempt pg sel).1 = [(sel, 4000)] := by
  unfold clickAttempt
  rcases pg.waitSel sel with m | u
  · simp [waitTrace]
  · rcases pg.clickSel sel with m | u
    · simp [waitTrace]
    · simp [waitTrace]

theorem attemptEvs_waitTrace (pg : Page) (v : String) (l : List String) :
    waitTrace (attemptEvs pg v l) = l.map (fun c => (c, 4000)) := by
  induction l with
  | nil => simp [attemptEvs, waitTrace]
  | cons c cs ih => simp [attemptEvs, waitTrace_append, fillAttempt_waitTrace, ih]

theorem clickEvs_waitTrace (pg : Page) (l : List String) :
    waitTrace (clickEvs pg l) = l.map (fun c => (c, 4000)) := by
  induction l with
  | nil => simp [clickEvs, waitTrace]
  | cons c cs ih => simp [clickEvs, waitTrace_append, clickAttempt_waitTrace, ih]

theorem fillLoop_skipFailed (pg : Page) (v : String) (pre rest : List String)
    (h : ∀ c ∈ pre, (fillAttempt pg v c).2 = false) :
    fillLoop pg v (pre ++ rest) =
      (attemptEvs pg v pre ++ (fillLoop pg v rest).1, (fillLoop pg v rest).2) := by
  induction pre with
  | nil => simp [attemptEvs]
  | cons c cs ih =>
    have hc : (fillAttempt pg v c).2 = false := h c (by simp)
    have hcs : ∀ x ∈ cs, (fillAttempt pg v x).2 = false := fun x hx => h x (by simp [hx])
    simp [fillLoop, hc, attemptEvs, ih hcs, List.append_assoc]

theorem clickLoop_skipFailed (pg : Page) (pre rest : List String)
    (h : ∀ c ∈ pre, (clickAttempt pg c).2 = false) :
    clickLoop pg (pre ++ rest) =
      (clickEvs pg pre ++ (clickLoop pg rest).1, (clickLoop pg rest).2) := by
  induction pre with
  | nil => simp [clickEvs]
  | cons c cs ih =>
    have hc : (clickAttempt pg c).2 = false := h c (by simp)
    have hcs : ∀ x ∈ cs, (clickAttempt pg x).2 = false := fun x hx => h x (by simp [hx])
    simp [clickLoop, hc, clickEvs, ih hcs, List.append_assoc]

theorem fillLoop_firstSuccess (pg : Page) (v s : String) (pre post : List String)
    (h1 : ∀ c ∈ pre, (fillAttempt pg v c).2 = false)
    (h2 : (fillAttempt pg v s).2 = true) :
    fillLoop pg v (pre ++ s :: post) =
      (attemptEvs pg v pre ++ (fillAttempt pg v s).1, some s) := by
  rw [fillLoop_skipFailed pg v pre (s :: post) h1]
  simp [fillLoop, h2]

theorem clickLoop_firstSuccess (pg : Page) (s : String) (pre post : List String)
    (h1 : ∀ c ∈ pre, (clickAttempt pg c).2 = false)
    (h2 : (clickAttempt pg s).2 = true) :
    clickLoop pg (pre ++ s :: post) =
      (clickEvs pg pre ++ (clickAttempt pg s).1, some s) := by
  rw [clickLoop_skipFailed pg pre (s :: post) h1]
  simp [clickLoop, h2]

/-- Claim C1: for `fill_input`/`click_element` with a non-empty candidate
list, candidates are attempted strictly in the given order, each attempted
candidate gets its own fresh 4000ms visibility wait, errors of failing
candidates are discarded, the first candidate whose full action sequence
completes without error yields success reporting that selector, and no
later candidate is ever attempted (the wait trace stops at the succeeding
candidate). -/
theorem claim1_first_success_short_circuits
    (pg : Page) (v s t : String) (pre post preC postC : List String)
    (h1 : ∀ c ∈ pre, (fillAttempt pg v c).2 = false)
    (h2 : (fillAttempt pg v s).2 = true)
    (h3 : ∀ c ∈ preC, (clickAttempt pg c).2 = false)
    (h4 : (clickAttempt pg t).2 = true) :
    (inputWriter pg (pre ++ s :: post) v).2 =
      Except.ok { success := true, selector := s } ∧
    waitTrace (inputWriter pg (pre ++ s :: post) v).1 =
      (pre ++ [s]).map (fun c => (c, 4000)) ∧
    (clicker pg (preC ++ t :: postC)).2 =
      Except.ok { success := true, selector := t } ∧
    waitTrace (clicker pg (preC ++ t :: postC)).1 =
      (preC ++ [t]).map (fun c => (c, 4000)) := by
  have hf := fillLoop_firstSuccess pg v s pre post h1 h2
  have hk := clickLoop_firstSuccess pg t preC postC h3 h4
  refine ⟨?_, ?_, ?_, ?_⟩
  · simp [inputWriter, hf]
  · simp [inputWriter, hf, waitTrace_append, attemptEvs_waitTrace, fillAttempt_waitTrace]
  · simp [clicker, hk]
  · simp [clicker, hk, waitTrace_append, clickEvs_waitTrace, clickAttempt_waitTrace]

/-- Concrete page for the claim C1 witness: selectors "#a" and "#c" never
become visible, everything else works. -/
def pgWitness : Page where
  waitSel := fun s => if s == "#a" || s == "#c" then Except.error "timeout" else Except.ok ()
  clickSel := fun _ => Except.ok ()
  typeSel := fun _ => Except.ok ()

theorem claim1_witness :
    (inputWriter pgWitness (["#a"] ++ "#b" :: ["#z"]) "v").2 =
      Except.ok { success := true, selector := "#b" } ∧
    waitTrace (inputWriter pgWitness (["#a"] ++ "#b" :: ["#z"]) "v").1 =
      (["#a"] ++ ["#b"]).map (fun c => (c, 4000)) ∧
    (clicker pgWitness (["#c"] ++ "#d" :: ["#y"])).2 =
      Except.ok { success := true, selector := "#d" } ∧
    waitTrace (clicker pgWitness (["#c"] ++ "#d" :: ["#y"])).1 =
      (["#c"] ++ ["#d"]).map (fun c => (c, 4000)) := by
  refine claim1_first_success_short_circuits pgWitness "v" "#b" "#d" ["#a"] ["#z"] ["#c"] ["#y"]
    ?_ ?_ ?_ ?_
  · intro c hc
    have : c = "#a" := by simpa using hc
    subst this
    decide
  · decide
  · intro c hc
    have : c = "#c" := by simpa using hc
    subst this
    decide
  · decide

/-- Claim C10: `fill_input`/`click_element` called with an empty candidate
list (which the zod schema accepts) perform no page interaction at all —
the event trace is empty, so the session state is untouched — and fail
immediately with the candidate-exhaustion error (whose selector list renders
as the empty string). -/
theorem claim10_empty_candidates (pg : Page) (v : String) :
    inputWriter pg [] v = ([], Except.error "Failed to fill input using: ") ∧
    clicker pg [] = ([], Except.error "Failed to click using: ") := by
  constructor
  · rfl
  · rfl

/-- One candidate attempt of assignemnt.js `type_into` (src/assignemnt.js
lines 169-181): wait up to 4000ms, triple-click, 400ms pause, type with
80ms delay; the error message of the failing step is surfaced. -/
def typeAttempt (pg : Page) (text sel : String) : List Event × Except String Unit :=
  match pg.waitSel sel with
  | Except.error m => ([Event.waited sel 4000], Except.error m)
  | Except.ok _ =>
    match pg.clickSel sel with
    | Except.error m => ([Event.waited sel 4000, Event.clicked sel 3], Except.error m)
    | Except.ok _ =>
      match pg.typeSel sel with
      | Except.error m =>
          ([Event.waited sel 4000, Event.clicked sel 3, Event.paused 400], Except.error m)
      | Except.ok _ =>
          ([Event.waited sel 4000, Event.clicked sel 3, Event.paused 400,
            Event.typed sel text 80], Except.ok ())

/-- The `type_into` loop: tracks `errorMsg`, the message of the most recent
failing candidate (JS `errorMsg = err.message`). -/
def typeIntoLoop (pg : Page) (text : String) :
    List String → Option String → List Event × Bool × Option String
  | [], last => ([], false, last)
  | sel :: rest, last =>
    match typeAttempt pg text sel with
    | (evs, Except.ok _) => (evs, true, last)
    | (evs, Except.error m) =>
      let r := typeIntoLoop pg text rest (some m)
      (evs ++ r.1, r.2.1, r.2.2)

/-- JS string concatenation with a possibly-null value: `null` renders as
the string "null". -/
def jsNullableToString : Option String → String
  | none => "null"
  | some m => m

/-- assignemnt.js `type_into` tool body (src/assignemnt.js lines 165-186):
on exhaustion it throws "Failed typing: " followed by only the LAST
candidate's error message, not the attempted selector list. -/
def typeInto (pg : Page) (selectors : List String) (text : String) :
    List Event × Except String Bool :=
  let r := typeIntoLoop pg text selectors none
  if r.2.1 then (r.1, Except.ok true)
  else (r.1, Except.error ("Failed typing: " ++ jsNullableToString r.2.2))

/-- Character-list helper: does `pat` start `hay`? -/
def charsStartWith : List Char → List Char → Bool
  | [], _ => true
  | _ :: _, [] => false
  | p :: ps, c :: cs => p == c && charsStartWith ps cs

/-- Character-list helper: does `pat` occur contiguously inside `hay`? -/
def charsContain (pat : List Char) : List Char → Bool
  | [] => pat.isEmpty
  | c :: tl => charsStartWith pat (c :: tl) || charsContain pat tl

/-- Does the string `hay` contain `pat` as a substring? -/
def strContains (hay pat : String) : Bool := charsContain pat.data hay.data

/-- Concrete page for the claim C2 counterexample: every visibility wait
times out with the same message. -/
def pgAllFail : Page where
  waitSel := fun _ => Except.error "timeout 4000ms exceeded"
  clickSel := fun _ => Except.ok ()
  typeSel := fun _ => Except.ok ()

/-- Claim C2 counterexample: `type_into` (assignemnt.js), one of the two
cited fill implementations, fails after exhausting the candidates
["#a", "#b"] with a message that carries only the last candidate's error
text — neither "#a" nor "#b" is mentioned, so the failure detail does not
list the attempted candidates. -/
theorem claim2_counterexample :
    (typeInto pgAllFail ["#a", "#b"] "x").2 =
      Except.error "Failed typing: timeout 4000ms exceeded" ∧
    strContains "Failed typing: timeout 4000ms exceeded" "#a" = false ∧
    strContains "Failed typing: timeout 4000ms exceeded" "#b" = false := by
  refine ⟨rfl, ?_, ?_⟩
  · decide
  · decide

/-- Claim C2 as amended: for the part_000 executors `fill_input` and
`click_element`, exhausting every candidate raises an error whose detail is
the full input candidate sequence, comma-joined in input order; the
assignemnt.js `type_into` instead reports only the most recent candidate's
own error message. -/
theorem claim2_amended_exhaustion_lists_candidates
    (pg : Page) (v : String) (sels selsC : List String)
    (h1 : ∀ c ∈ sels, (fillAttempt pg v c).2 = false)
    (h2 : ∀ c ∈ selsC, (clickAttempt pg c).2 = false) :
    (inputWriter pg sels v).2 =
      Except.error ("Failed to fill input using: " ++ String.intercalate "," sels) ∧
    (clicker pg selsC).2 =
      Except.error ("Failed to click using: " ++ String.intercalate "," selsC) := by
  have hf := fillLoop_skipFailed pg v sels [] h1
  have hk := clickLoop_skipFailed pg selsC [] h2
  simp [fillLoop] at hf
  simp [clickLoop] at hk
  constructor
  · simp [inputWriter, hf, jsArrayToString]
  · simp [clicker, hk, jsArrayToString]

theorem claim2_witness :
    (inputWriter pgAllFail ["#a", "#b"] "v").2 =
      Except.error ("Failed to fill input using: " ++ String.intercalate "," ["#a", "#b"]) ∧
    (clicker pgAllFail ["#p", "#q"]).2 =
      Except.error ("Failed to click using: " ++ String.intercalate "," ["#p", "#q"]) := by
  refine claim2_amended_exhaustion_lists_candidates pgAllFail "v" ["#a", "#b"] ["#p", "#q"] ?_ ?_
  · intro c hc
    rcases (by simpa using hc : c = "#a" ∨ c = "#b") with h | h <;> subst h <;> decide
  · intro c hc
    rcases (by simpa using hc : c = "#p" ∨ c = "#q") with h | h <;> subst h <;> decide

/-- A DOM element as the snapshot tools read it: tag name (lowercased) and
the identifying attributes; a missing attribute is the empty string (JS
reads them as falsy empty strings). -/
structure DomEl where
  tag : String
  id : String
  name : String
  ty : String
  placeholder : String
  className : String
  action : String
  text : String
  required : Bool
deriving DecidableEq, Repr

/-- Selector candidates for an input/textarea/select in part_000
`page_structure` (src/unnamed/part_000 lines 86-90): pushes, in this
order, `#id`, `[name=...]`, `input[type=...]`, `[placeholder=...]`, each
only when the attribute is truthy (non-empty). -/
def inputSelectors (el : DomEl) : List String :=
  (if el.id ≠ "" then ["#" ++ el.id] else []) ++
  (if el.name ≠ "" then ["[name=\"" ++ el.name ++ "\"]"] else []) ++
  (if el.ty ≠ "" then ["input[type=\"" ++ el.ty ++ "\"]"] else []) ++
  (if el.placeholder ≠ "" then ["[placeholder=\"" ++ el.placeholder ++ "\"]"] else [])

/-- Selector candidates for a button in part_000 `page_structure`
(src/unnamed/part_000 lines 106-109): `#id`, `.class.chain`, `[type=...]`;
the visible text contributes no candidate. -/
def buttonSelectors (el : DomEl) : List String :=
  (if el.id ≠ "" then ["#" ++ el.id] else []) ++
  (if el.className ≠ "" then
    ["." ++ String.intercalate "." (el.className.splitOn " ")] else []) ++
  (if el.ty ≠ "" then ["[type=\"" ++ el.ty ++ "\"]"] else [])

/-- Selector candidates for an input in assignemnt.js `inspect_dom`
(src/assignemnt.js lines 117-121): `#id`, `[name=...]`,
`[placeholder=...]`, `input[type=...]`, in that order. -/
def inspectInputSelectors (el : DomEl) : List String :=
  (if el.id ≠ "" then ["#" ++ el.id] else []) ++
  (if el.name ≠ "" then ["[name=\"" ++ el.name ++ "\"]"] else []) ++
  (if el.placeholder ≠ "" then ["[placeholder=\"" ++ el.placeholder ++ "\"]"] else []) ++
  (if el.ty ≠ "" then ["input[type=\"" ++ el.ty ++ "\"]"] else [])

/-- The Selector Candidate list for an input as the spec words it (§3):
identifier-based, then name-attribute, then placeholder-attribute, then
type-attribute, then class-based, each contributing only when present and
non-empty.  Stated from the spec for comparison with the source-derived
`inputSelectors`. -/
def specOrderSelectors (el : DomEl) : List String :=
  (if el.id ≠ "" then ["#" ++ el.id] else []) ++
  (if el.name ≠ "" then ["[name=\"" ++ el.name ++ "\"]"] else []) ++
  (if el.placeholder ≠ "" then ["[placeholder=\"" ++ el.placeholder ++ "\"]"] else []) ++
  (if el.ty ≠ "" then ["input[type=\"" ++ el.ty ++ "\"]"] else []) ++
  (if el.className ≠ "" then
    ["." ++ String.intercalate "." (el.className.splitOn " ")] else [])

/-- An email input identified only by its type and placeholder attributes. -/
def emailBox : DomEl :=
  { tag := "input", id := "", name := "", ty := "email", placeholder := "Email",
    className := "", action := "", text := "", required := false }

/-- Claim C3 counterexample: part_000 `page_structure` derives input
candidates with the type-attribute candidate BEFORE the placeholder
candidate, so for an input with only type and placeholder set the produced
list differs from the spec's fixed priority order (identifier, name,
placeholder, type, class). -/
theorem claim3_counterexample :
    inputSelectors emailBox = ["input[type=\"email\"]", "[placeholder=\"Email\"]"] ∧
    specOrderSelectors emailBox = ["[placeholder=\"Email\"]", "input[type=\"email\"]"] ∧
    inputSelectors emailBox ≠ specOrderSelectors emailBox := by
  refine ⟨?_, ?_, ?_⟩ <;> decide

theorem optSingle_sublist {α : Type} (p : Prop) [Decidable p] (x : α) :
    List.Sublist (if p then [x] else []) [x] := by
  by_cases hp : p <;> simp [hp]

/-- Claim C3 as amended: in part_000 `page_structure`, input candidates
come in the fixed order identifier, name, type-attribute, placeholder
(class never contributes), and the list is empty exactly when all four of
those attributes are empty; in assignemnt.js `inspect_dom` the order is
identifier, name, placeholder, type-attribute; button candidates come in
the order identifier, class, type-attribute. -/
theorem claim3_amended_priority_order (el : DomEl) :
    (inputSelectors el = [] ↔
      (el.id = "" ∧ el.name = "" ∧ el.ty = "" ∧ el.placeholder = "")) ∧
    List.Sublist (inputSelectors el)
      ["#" ++ el.id, "[name=\"" ++ el.name ++ "\"]", "input[type=\"" ++ el.ty ++ "\"]",
       "[placeholder=\"" ++ el.placeholder ++ "\"]"] ∧
    (inspectInputSelectors el = [] ↔
      (el.id = "" ∧ el.name = "" ∧ el.ty = "" ∧ el.placeholder = "")) ∧
    List.Sublist (inspectInputSelectors el)
      ["#" ++ el.id, "[name=\"" ++ el.name ++ "\"]",
       "[placeholder=\"" ++ el.placeholder ++ "\"]", "input[type=\"" ++ el.ty ++ "\"]"] ∧
    List.Sublist (buttonSelectors el)
      ["#" ++ el.id, "." ++ String.intercalate "." (el.className.splitOn " "),
       "[type=\"" ++ el.ty ++ "\"]"] := by
  refine ⟨?_, ?_, ?_, ?_, ?_⟩
  · unfold inputSelectors
    split_ifs <;> simp_all
  · unfold inputSelectors
    exact (((optSingle_sublist _ _).append (optSingle_sublist _ _)).append
      (optSingle_sublist _ _)).append (optSingle_sublist _ _)
  · unfold inspectInputSelectors
    split_ifs <;> simp_all
  · unfold inspectInputSelectors
    exact (((optSingle_sublist _ _).append (optSingle_sublist _ _)).append
      (optSingle_sublist _ _)).append (optSingle_sublist _ _)
  · unfold buttonSelectors
    exact ((optSingle_sublist _ _).append (optSingle_sublist _ _)).append
      (optSingle_sublist _ _)

/-- A submit button with visible text "Submit". -/
def submitBtn : DomEl :=
  { tag := "button", id := "b1", name := "", ty := "submit", placeholder := "",
    className := "", action := "", text := "Submit", required := false }

/-- Claim C9 counterexample: a button with non-empty visible text "Submit"
gets the candidate list ["#b1", "[type=\"submit\"]"]; no candidate contains
the visible text, so the list has no text-derived candidate. -/
theorem claim9_counterexample :
    submitBtn.text = "Submit" ∧ submitBtn.text ≠ "" ∧
    buttonSelectors submitBtn = ["#b1", "[type=\"submit\"]"] ∧
    (buttonSelectors submitBtn).all (fun c => !(strContains c submitBtn.text)) = true := by
  refine ⟨rfl, ?_, ?_, ?_⟩ <;> decide

/-- Claim C9 as amended: button candidates are derived only from the id,
class and type attributes; the candidate list does not depend on the
element's visible text at all (the text is recorded in the descriptor's
text field instead, see `buttonDescs`). -/
theorem claim9_amended_text_never_contributes (el : DomEl) (s : String) :
    buttonSelectors { el with text := s } = buttonSelectors el := rfl

/-- Does a DOM element match `querySelectorAll("form")`? -/
def matchesFormQ (e : DomEl) : Bool := e.tag == "form"

/-- Does it match `querySelectorAll("input, textarea, select")`? -/
def matchesInputQ (e : DomEl) : Bool :=
  e.tag == "input" || e.tag == "textarea" || e.tag == "select"

/-- Does it match `querySelectorAll("button, input[type='submit'],
input[type='button']")`? -/
def matchesButtonQ (e : DomEl) : Bool :=
  e.tag == "button" || (e.tag == "input" && (e.ty == "submit" || e.ty == "button"))

/-- An Element Descriptor as part_000 `page_structure` builds it.  Field
order: forms carry selector, id, class, action; inputs carry tag,
inputType, id, name, class, placeholder, selectors, required; buttons
carry id, class, trimmed text, selectors. -/
inductive Desc where
  | formD : String → String → String → String → Desc
  | inputD : String → String → String → String → String → String → List String → Bool → Desc
  | buttonD : String → String → String → List String → Desc
deriving DecidableEq, Repr

/-- The form descriptors: `form:nth-of-type(i+1)` selector per form, in
document order. -/
def formDescs (doc : List DomEl) : List Desc :=
  (doc.filter matchesFormQ).enum.map fun p =>
    Desc.formD ("form:nth-of-type(" ++ toString (p.1 + 1) ++ ")") p.2.id p.2.className p.2.action

/-- The input descriptors, in document order. -/
def inputDescs (doc : List DomEl) : List Desc :=
  (doc.filter matchesInputQ).map fun el =>
    Desc.inputD el.tag el.ty el.id el.name el.className el.placeholder
      (inputSelectors el) el.required

/-- The button descriptors, in document order; the visible text is trimmed
and recorded as a field. -/
def buttonDescs (doc : List DomEl) : List Desc :=
  (doc.filter matchesButtonQ).map fun b =>
    Desc.buttonD b.id b.className b.text.trim (buttonSelectors b)

/-- part_000 `page_structure` tool body (src/unnamed/part_000 lines
65-125): the scope argument is received (default "form") and passed into
the evaluate callback, but the callback never reads it — the snapshot
always lists all forms, then all inputs, then all buttons. -/
def domExplorer (scope : String) (doc : List DomEl) : List Desc :=
  formDescs doc ++ inputDescs doc ++ buttonDescs doc

/-- A form element, for the claim C4 counterexample document. -/
def c4Form : DomEl :=
  { tag := "form", id := "f1", name := "", ty := "", placeholder := "",
    className := "", action := "/signup", text := "", required := false }

/-- An email input, for the claim C4 counterexample document. -/
def c4Input : DomEl :=
  { tag := "input", id := "email", name := "email", ty := "email", placeholder := "",
    className := "", action := "", text := "", required := false }

/-- Claim C4 counterexample: on a document holding one form and one input,
`page_structure` with scope "input" still returns the form descriptor —
the result is not the descriptors matching the scope filter. -/
theorem claim4_counterexample :
    domExplorer "input" [c4Form, c4Input] =
      [Desc.formD "form:nth-of-type(1)" "f1" "" "/signup",
       Desc.inputD "input" "email" "email" "email" "" ""
         ["#email", "[name=\"email\"]", "input[type=\"email\"]"] false] ∧
    domExplorer "input" [c4Form, c4Input] ≠
      [Desc.inputD "input" "email" "email" "email" "" ""
         ["#email", "[name=\"email\"]", "input[type=\"email\"]"] false] := by
  refine ⟨?_, ?_⟩ <;> decide

/-- Claim C4 as amended: `page_structure` ignores its scope argument — for
any two scopes the result is identical — always returning the descriptors
of all forms, all inputs and all buttons in document order; it returns an
empty sequence, not an error, when no such elements exist, and on a page
whose only element is a single input it returns exactly that one
descriptor. -/
theorem claim4_amended_scope_ignored (s1 s2 s3 s4 : String) (doc : List DomEl) :
    domExplorer s1 doc = domExplorer s2 doc ∧
    domExplorer s3 [] = [] ∧
    domExplorer s4 [c4Input] =
      [Desc.inputD "input" "email" "email" "email" "" ""
        ["#email", "[name=\"email\"]", "input[type=\"email\"]"] false] := by
  refine ⟨rfl, rfl, rfl⟩

/-- Browser-session state for the playwright scripts: whether a browser
handle exists, and how many pages have been opened on it. -/
structure BSession where
  browserOpen : Bool
  pages : Nat
deriving DecidableEq, Repr

/-- part_000 (playwright script) `open_browser` (src/unnamed/part_000 lines
273-285): if a browser handle exists it only reports, otherwise it
launches a browser and opens exactly one page. -/
def openBrowserB (s : BSession) : BSession × String :=
  if s.browserOpen then (s, "Browser is already open")
  else ({ browserOpen := true, pages := 1 }, "Browser opened successfully")

/-- part_001 module-load state: the browser is launched at import time with
one page already open. -/
def initP1 : BSession := { browserOpen := true, pages := 1 }

/-- part_001 `open_browser` (src/unnamed/part_001 lines 37-44):
unconditionally calls `browser.newPage()`, opening a further page every
time, and returns nothing. -/
def openBrowserP1 (s : BSession) : BSession := { s with pages := s.pages + 1 }

/-- Claim C7 counterexample: two successive calls of part_001's
`open_browser` without an intervening close leave three pages open, not
one, and even a single call is not a no-op. -/
theorem claim7_counterexample :
    (openBrowserP1 (openBrowserP1 initP1)).pages = 3 ∧
    openBrowserP1 initP1 ≠ initP1 := by
  refine ⟨rfl, by decide⟩

/-- Claim C7 as amended: the part_000 playwright `open_browser` is
idempotent and preserves the single-page invariant — opening from a closed
state creates exactly one page, opening while open is a no-op that reports
the existing state, and a second call right after a first leaves exactly
one page; part_001's `open_browser`, by contrast, grows the page count on
every call. -/
theorem claim7_amended_idempotence (p q : Nat) (s : BSession) :
    openBrowserB { browserOpen := false, pages := p } =
      ({ browserOpen := true, pages := 1 }, "Browser opened successfully") ∧
    openBrowserB { browserOpen := true, pages := q } =
      ({ browserOpen := true, pages := q }, "Browser is already open") ∧
    openBrowserB (openBrowserB { browserOpen := false, pages := p }).1 =
      ((openBrowserB { browserOpen := false, pages := p }).1, "Browser is already open") ∧
    (openBrowserB { browserOpen := false, pages := p }).1.pages = 1 ∧
    (openBrowserP1 s).pages = s.pages + 1 := by
  exact ⟨rfl, rfl, rfl, rfl, rfl⟩

/-- The page/navigation environment for the navigation tools: whether a
page is open, and whether `page.goto(url)` settles for a given url. -/
structure NavEnv where
  pageOpen : Bool
  settles : String → Bool

/-- part_000 (playwright script) `open_url` (src/unnamed/part_000 lines
287-300): throws "No browser open yet" when no page exists, navigates,
waits `waitFor` milliseconds when that argument is truthy (absent or zero
means no wait), and returns a template string echoing the url.  A goto
rejection propagates; its message is abstracted as "goto rejected: url". -/
def openUrlB (env : NavEnv) (url : String) (waitFor : Option Nat) :
    List Event × Except String String :=
  if env.pageOpen = false then ([], Except.error "No browser open yet")
  else if env.settles url = false then
    ([Event.gotoUrl url], Except.error ("goto rejected: " ++ url))
  else
    match waitFor with
    | some (n + 1) =>
        ([Event.gotoUrl url, Event.waitedTimeout (n + 1)],
         Except.ok ("Opened " ++ url ++ " successfully"))
    | _ => ([Event.gotoUrl url], Except.ok ("Opened " ++ url ++ " successfully"))

/-- The `\x7b status: "ok", url \x7d` payload of the puppeteer `open_url`. -/
structure NavOk where
  status : String
  url : String
deriving DecidableEq, Repr

/-- part_000 (puppeteer script) `open_url` (src/unnamed/part_000 lines
54-63): goto with networkidle2, a fixed 2000ms pause, then returns
`\x7b status: "ok", url \x7d`; the module-scope page always exists. -/
def navigateTool (settles : String → Bool) (url : String) :
    List Event × Except String NavOk :=
  if settles url = false then
    ([Event.gotoUrl url], Except.error ("goto rejected: " ++ url))
  else ([Event.gotoUrl url, Event.paused 2000], Except.ok { status := "ok", url := url })

/-- Claim C8: `open_url(url, waitFor?)` loads the url into the active page;
when a positive wait is given, completion is suspended for that duration
after load; the result is a confirmation echoing the url; the call fails
when no session is open or the load does not settle.  The puppeteer
variant likewise echoes the url after load and a fixed 2000ms pause. -/
theorem claim8_navigate_echoes_url (env : NavEnv) (url : String) (n : Nat)
    (e2 e3 : NavEnv) (u2 u3 : String) (w2 w3 : Option Nat)
    (hp : env.pageOpen = true) (hs : env.settles url = true)
    (h2 : e2.pageOpen = false)
    (h3 : e3.pageOpen = true) (h3b : e3.settles u3 = false) :
    openUrlB env url (some (n + 1)) =
      ([Event.gotoUrl url, Event.waitedTimeout (n + 1)],
       Except.ok ("Opened " ++ url ++ " successfully")) ∧
    openUrlB env url none =
      ([Event.gotoUrl url], Except.ok ("Opened " ++ url ++ " successfully")) ∧
    openUrlB e2 u2 w2 = ([], Except.error "No browser open yet") ∧
    openUrlB e3 u3 w3 = ([Event.gotoUrl u3], Except.error ("goto rejected: " ++ u3)) ∧
    navigateTool env.settles url =
      ([Event.gotoUrl url, Event.paused 2000], Except.ok { status := "ok", url := url }) := by
  refine ⟨?_, ?_, ?_, ?_, ?_⟩
  · simp [openUrlB, hp, hs]
  · simp [openUrlB, hp, hs]
  · simp [openUrlB, h2]
  · simp [openUrlB, h3, h3b]
  · simp [navigateTool, hs]

/-- A navigation environment in which the page is open and every url
settles, for the claim C8 witness. -/
def navAllOk : NavEnv where
  pageOpen := true
  settles := fun _ => true

/-- A navigation environment with no open page, for the claim C8 witness. -/
def navClosed : NavEnv where
  pageOpen := false
  settles := fun _ => true

/-- A navigation environment in which no url settles, for the claim C8
witness. -/
def navNeverSettles : NavEnv where
  pageOpen := true
  settles := fun _ => false

theorem claim8_witness :
    openUrlB navAllOk "https://ui.chaicode.com" (some 2000) =
      ([Event.gotoUrl "https://ui.chaicode.com", Event.waitedTimeout 2000],
       Except.ok ("Opened " ++ "https://ui.chaicode.com" ++ " successfully")) ∧
    openUrlB navAllOk "https://ui.chaicode.com" none =
      ([Event.gotoUrl "https://ui.chaicode.com"],
       Except.ok ("Opened " ++ "https://ui.chaicode.com" ++ " successfully")) ∧
    openUrlB navClosed "https://a.example" (some 5) =
      ([], Except.error "No browser open yet") ∧
    openUrlB navNeverSettles "https://b.example" none =
      ([Event.gotoUrl "https://b.example"],
       Except.error ("goto rejected: " ++ "https://b.example")) ∧
    navigateTool navAllOk.settles "https://ui.chaicode.com" =
      ([Event.gotoUrl "https://ui.chaicode.com", Event.paused 2000],
       Except.ok { status := "ok", url := "https://ui.chaicode.com" }) :=
  claim8_navigate_echoes_url navAllOk "https://ui.chaicode.com" 1999
    navClosed navNeverSettles "https://a.example" "https://b.example" (some 5) none
    rfl rfl rfl rfl rfl

/-- Modelled from the spec: the planner collaborator of §4.5 hands the
Turn-Bounded Control Loop either exactly one next Action Request
(abstracted to its label) or a completion signal.  The loop itself is
realised in the repository by the external agents-runner call
`runner.run(webAgent, task, ...)` whose body is not among the sources, so
the state machine is taken from the spec's words. -/
inductive Decision where
  | act : String → Decision
  | complete : Decision
deriving DecidableEq, Repr

/-- Modelled from the spec: a Turn Record holds the turn index and the
action taken that turn. -/
structure TurnRec where
  turn : Nat
  action : String
deriving DecidableEq, Repr

/-- Modelled from the spec: the loop's terminal states — Completed,
Exhausted (not an error: it carries the recorded turn log), and Failed
(an unrecoverable session-level error). -/
inductive LoopResult where
  | completed : List TurnRec → LoopResult
  | exhausted : List TurnRec → LoopResult
  | failed : String → List TurnRec → LoopResult
deriving DecidableEq, Repr

/-- Modelled from the spec: the session-level outcome of one acting step.
Selector-level failures are absorbed inside the executor and are not
session-level errors; only an unrecoverable error is fatal. -/
inductive ExecOutcome where
  | ok : ExecOutcome
  | fatal : String → ExecOutcome
deriving DecidableEq, Repr

/-- Modelled from the spec (§4.5): one observe-decide-act cycle per
remaining turn; when the turn counter reaches the configured maximum the
loop force-transitions to Exhausted with the recorded turn log; a
completion signal yields Completed; a fatal session error yields Failed. -/
def loopAux (planner : Nat → Decision) (exec : Nat → ExecOutcome) :
    Nat → Nat → List TurnRec → LoopResult
  | 0, _, recs => LoopResult.exhausted recs.reverse
  | fuel + 1, turn, recs =>
    match planner turn with
    | Decision.complete => LoopResult.completed recs.reverse
    | Decision.act a =>
      match exec turn with
      | ExecOutcome.fatal m => LoopResult.failed m recs.reverse
      | ExecOutcome.ok => loopAux planner exec fuel (turn + 1) ({ turn := turn, action := a } :: recs)

/-- Modelled from the spec: the Control Loop run with a configured maximum
turn count. -/
def controlLoop (planner : Nat → Decision) (exec : Nat → ExecOutcome) (maxTurns : Nat) :
    LoopResult :=
  loopAux planner exec maxTurns 0 []

/-- The action label a planner decision carries ("" for completion). -/
def actLabel : Decision → String
  | Decision.act a => a
  | Decision.complete => ""

theorem loopAux_never_complete (planner : Nat → Decision) (exec : Nat → ExecOutcome)
    (hp : ∀ n, planner n ≠ Decision.complete) (hx : ∀ n, exec n = ExecOutcome.ok) :
    ∀ fuel turn recs, loopAux planner exec fuel turn recs =
      LoopResult.exhausted (recs.reverse ++ (List.range' turn fuel).map
        (fun i => { turn := i, action := actLabel (planner i) })) := by
  intro fuel
  induction fuel with
  | zero => intro turn recs; simp [loopAux]
  | succ m ih =>
    intro turn recs
    have hpt : planner turn = Decision.act (actLabel (planner turn)) := by
      cases h : planner turn with
      | act a => simp [actLabel]
      | complete => exact absurd h (hp turn)
    rw [loopAux, hpt, hx turn]
    change loopAux planner exec m (turn + 1)
        ({ turn := turn, action := actLabel (planner turn) } :: recs) = _
    rw [ih (turn + 1)]
    simp [List.range'_succ, List.append_assoc]

/-- Claim C5: the Control Loop run with maximum turn count M against a
planner that never signals completion (and an executor that raises no
session-fatal error) terminates after exactly M action cycles in the
Exhausted terminal state — not Completed and not the error state Failed —
returning the M recorded Turn Records, whose turn indices are 0..M-1 in
order, to the caller.  The loop is modelled from the spec (§4.5), its
implementation living in the external agents runner. -/
theorem claim5_exhausts_after_max_turns (planner : Nat → Decision)
    (exec : Nat → ExecOutcome) (M : Nat)
    (hp : ∀ n, planner n ≠ Decision.complete) (hx : ∀ n, exec n = ExecOutcome.ok) :
    controlLoop planner exec M =
      LoopResult.exhausted ((List.range M).map
        (fun i => { turn := i, action := actLabel (planner i) })) := by
  rw [controlLoop, loopAux_never_complete planner exec hp hx M 0 []]
  simp [List.range_eq_range']

theorem claim5_witness :
    controlLoop (fun _ => Decision.act "click") (fun _ => ExecOutcome.ok) 3 =
      LoopResult.exhausted
        [{ turn := 0, action := "click" }, { turn := 1, action := "click" },
         { turn := 2, action := "click" }] :=
  claim5_exhausts_after_max_turns (fun _ => Decision.act "click") (fun _ => ExecOutcome.ok) 3
    (fun n h => Decision.noConfusion h) (fun n => rfl)

/-- Whether the external agents-runner promise resolves with a final
output or rejects with an error (turn-budget overrun included among the
rejections the caller may see). -/
inductive RunOutcome where
  | resolves : RunOutcome
  | rejects : String → RunOutcome
deriving DecidableEq, Repr

/-- The externally visible steps a runner function performs. -/
inductive RunEvent where
  | ranAgent : RunEvent
  | loggedFinal : RunEvent
  | loggedError : RunEvent
  | closedBrowser : RunEvent
deriving DecidableEq, BEq, Repr

/-- part_000 `talkToAgent` (src/unnamed/part_000 lines 210-220): the try
branch runs the agent, logs the final output and closes the browser; the
catch branch logs the error and closes the browser. -/
def talkToAgent (o : RunOutcome) : List RunEvent :=
  match o with
  | RunOutcome.resolves =>
      [RunEvent.ranAgent, RunEvent.loggedFinal, RunEvent.closedBrowser]
  | RunOutcome.rejects _ =>
      [RunEvent.ranAgent, RunEvent.loggedError, RunEvent.closedBrowser]

/-- assignemnt.js `runTask` (src/assignemnt.js lines 240-250): try runs and
logs, catch logs the error, finally closes the browser. -/
def runTask (o : RunOutcome) : List RunEvent :=
  match o with
  | RunOutcome.resolves =>
      [RunEvent.ranAgent, RunEvent.loggedFinal, RunEvent.closedBrowser]
  | RunOutcome.rejects _ =>
      [RunEvent.ranAgent, RunEvent.loggedError, RunEvent.closedBrowser]

/-- part_001 `chatwithagent` (src/unnamed/part_001 lines 99-104): runs the
agent and logs; there is no close call on any path, and a rejection
escapes uncaught. -/
def chatwithagentP1 (o : RunOutcome) : List RunEvent × Except String Unit :=
  match o with
  | RunOutcome.resolves =>
      ([RunEvent.ranAgent, RunEvent.loggedFinal], Except.ok ())
  | RunOutcome.rejects m => ([RunEvent.ranAgent], Except.error m)

/-- How many browser-close calls a runner trace contains. -/
def closeCount (evs : List RunEvent) : Nat :=
  evs.countP (fun e => e == RunEvent.closedBrowser)

/-- Claim C6 counterexample: part_001's task run `chatwithagent` — one of
the claim's cited exit paths — closes the browser zero times on its
successful-completion exit path (while part_000's `talkToAgent` closes
exactly once there). -/
theorem claim6_counterexample :
    closeCount (chatwithagentP1 RunOutcome.resolves).1 = 0 ∧
    closeCount (talkToAgent RunOutcome.resolves) = 1 := by
  refine ⟨rfl, rfl⟩

/-- Claim C6 as amended: `talkToAgent` (part_000) and `runTask`
(assignemnt.js) close the browser exactly once on every exit path, both
when the run resolves and when it rejects; part_001's `chatwithagent`
never closes it on any path. -/
theorem claim6_amended_close_exactly_once (o : RunOutcome) :
    closeCount (talkToAgent o) = 1 ∧
    closeCount (runTask o) = 1 ∧
    closeCount (chatwithagentP1 o).1 = 0 := by
  cases o <;> exact ⟨rfl, rfl, rfl⟩

end AgentSdk
